import Mathlib

/-! Verification development for the DB_Backup repository, a pair of Python
operator scripts (`direct_backup.py`, `direct_restore.py`) that wrap the
external PostgreSQL dump/restore utilities.  The scripts are shallowly
embedded below: each Python function becomes a Lean function over an
explicit world record that carries the environment, the interactive
inputs, the filesystem-existence oracle and the behaviour of each
subprocess invocation.
-/

namespace DBBackup

/-! Python string primitives used by the scripts.

The scripts only ever apply `strip`, `upper` and `lower` to ASCII
prompts and answers, so the ASCII case maps of `Char.toUpper` /
`Char.toLower` model them faithfully. -/

/-- Whitespace characters removed by Python `str.strip()` (ASCII range). -/
def pyIsSpace (c : Char) : Bool :=
  c == ' ' || c == '\t' || c == '\n' || c == '\x0d' || c == '\x0b' || c == '\x0c'

/-- Python `str.strip()`: drop whitespace from both ends. -/
def pyStrip (s : String) : String :=
  String.mk (((s.data.dropWhile pyIsSpace).reverse.dropWhile pyIsSpace).reverse)

/-- Python `str.upper()` (ASCII case map). -/
def pyUpper (s : String) : String :=
  String.mk (s.data.map Char.toUpper)

/-- Python `str.lower()` (ASCII case map). -/
def pyLower (s : String) : String :=
  String.mk (s.data.map Char.toLower)

/-- Whether the first character list is an initial segment of the second. -/
def isPrefChars : List Char → List Char → Bool
  | [], _ => true
  | _ :: _, [] => false
  | a :: as, b :: bs => a == b && isPrefChars as bs

/-- Replace every non-overlapping occurrence of `pat` (scanning left to
right) by `rep`; the fuel is an upper bound on the scan length. -/
def pyReplaceLoop (pat rep : List Char) : Nat → List Char → List Char
  | _, [] => []
  | 0, l => l
  | Nat.succ n, a :: as =>
      if isPrefChars pat (a :: as) && !pat.isEmpty then
        rep ++ pyReplaceLoop pat rep n (List.drop (pat.length - 1) as)
      else a :: pyReplaceLoop pat rep n as

/-- Python `str.replace(pat, rep)` for a non-empty pattern: replace all
non-overlapping occurrences, scanning left to right. -/
def pyReplace (s pat rep : String) : String :=
  String.mk (pyReplaceLoop pat.data rep.data s.data.length s.data)

/-- Python truthiness of an optional string (`not x` is true exactly when
`x` is `None` or the empty string). -/
def truthy (o : Option String) : Bool :=
  match o with
  | none => false
  | some s => !(s == "")

/-- `os.environ.copy()` followed by `env[k] = v`: the copied environment
with exactly the one variable `k` overridden to `v`. -/
def setEnv (e : String → Option String) (k v : String) : String → Option String :=
  fun x => if x = k then some v else e x

/-- One call to `subprocess.run`: the argument list, the (copied,
overlaid) environment passed to it, and the `timeout` argument if any. -/
structure Invocation where
  argv : List String
  env : String → Option String
  timeout : Option Nat

/-- Result of a subprocess that ran to completion (`CompletedProcess`). -/
structure RunResult where
  returncode : Int
  stdout : String
  stderr : String
deriving DecidableEq

/-- Behaviour of one `subprocess.run` call in the backup script (which
sets no timeout): it either completes, or raises `FileNotFoundError`
because the executable is missing. -/
inductive PgRunBehavior where
  | completes (r : RunResult)
  | missingExe
deriving DecidableEq

/-! Embedding of direct_backup.py. -/

/-- The fixed install path hard-coded in `direct_backup.py` line 41. -/
def PG_DUMP_PATH : String := "/opt/homebrew/opt/postgresql@15/bin/pg_dump"

/-- Lines 26-27: strip the scheme from `SUPABASE_URL` and prepend the
direct-connection prefix. -/
def backupHost (supabaseUrl : String) : String :=
  "db." ++ (pyReplace (pyReplace supabaseUrl "https://" "") "http://" "")

/-- Line 35: `schema_backup_{timestamp}.sql`. -/
def schemaFileName (timestamp : String) : String :=
  "schema_backup_" ++ timestamp ++ ".sql"

/-- Line 84: `complete_backup_{timestamp}.sql`. -/
def dataFileName (timestamp : String) : String :=
  "complete_backup_" ++ timestamp ++ ".sql"

/-- Lines 40-53: the schema-only `pg_dump` argument list. -/
def backupCmd (host timestamp : String) : List String :=
  [PG_DUMP_PATH,
   "--host=" ++ host,
   "--port=5432",
   "--username=postgres",
   "--dbname=postgres",
   "--schema-only",
   "--no-owner",
   "--no-privileges",
   "--clean",
   "--if-exists",
   "--no-sync",
   "--file=" ++ schemaFileName timestamp]

/-- Python `list` assignment `l[-1] = x` on a non-empty list: replace the
last element. -/
def setLast (l : List String) (x : String) : List String :=
  match l with
  | [] => []
  | [_] => [x]
  | a :: b :: rest => a :: setLast (b :: rest) x

/-- Lines 87-89: copy the schema command, remove the schema-only flag
(Python `list.remove`, first occurrence), and replace the last element
with the data output file argument. -/
def dataCmd (host timestamp : String) : List String :=
  setLast ((backupCmd host timestamp).erase "--schema-only")
    ("--file=" ++ dataFileName timestamp)

/-- Terminal outcome of one run of `backup_supabase_schema`. -/
inductive BackupOutcome where
  | noUrl
  | pgDumpNotFound
  | schemaFailed (stderr : String)
  | emptyFile
  | schemaOnly (file : String) (size : Nat)
  | dataFailed (stderr : String)
  | complete (schemaFile dataFile : String) (schemaSize dataSize : Nat)
deriving DecidableEq

/-- The world one run of the backup script executes in: environment
variables, the typed operator answers, the wall-clock timestamp string
(`datetime.now().strftime("%Y%m%d_%H%M%S")`), the behaviour of each
`pg_dump` invocation and the resulting file sizes. -/
structure BackupWorld where
  supabaseUrl : Option String
  environ : String → Option String
  passwordInput : String
  timestamp : String
  schemaBehavior : PgRunBehavior
  schemaFileSize : Nat
  dataAnswer : String
  dataBehavior : PgRunBehavior
  dataFileSize : Nat

/-- `backup_supabase_schema` (direct_backup.py lines 17-114): returns the
terminal outcome together with the list of subprocess invocations that
were started, in order. -/
def backupRun (w : BackupWorld) : BackupOutcome × List Invocation :=
  if !truthy w.supabaseUrl then (BackupOutcome.noUrl, [])
  else
    let host := backupHost (w.supabaseUrl.getD "")
    let password := pyStrip w.passwordInput
    let cmd := backupCmd host w.timestamp
    let env := setEnv w.environ "PGPASSWORD" password
    let inv1 : Invocation := ⟨cmd, env, none⟩
    match w.schemaBehavior with
    | PgRunBehavior.missingExe => (BackupOutcome.pgDumpNotFound, [inv1])
    | PgRunBehavior.completes r =>
      if r.returncode = 0 then
        if 0 < w.schemaFileSize then
          if pyLower (pyStrip w.dataAnswer) = "y" then
            let inv2 : Invocation := ⟨dataCmd host w.timestamp, env, none⟩
            match w.dataBehavior with
            | PgRunBehavior.missingExe => (BackupOutcome.pgDumpNotFound, [inv1, inv2])
            | PgRunBehavior.completes r2 =>
              if r2.returncode = 0 then
                (BackupOutcome.complete (schemaFileName w.timestamp)
                  (dataFileName w.timestamp) w.schemaFileSize w.dataFileSize,
                 [inv1, inv2])
              else (BackupOutcome.dataFailed r2.stderr, [inv1, inv2])
          else (BackupOutcome.schemaOnly (schemaFileName w.timestamp) w.schemaFileSize, [inv1])
        else (BackupOutcome.emptyFile, [inv1])
      else (BackupOutcome.schemaFailed r.stderr, [inv1])

/-! Embedding of direct_restore.py. -/

/-- The fixed install path hard-coded in `direct_restore.py` line 61. -/
def PSQL_PATH : String := "/opt/homebrew/opt/postgresql@15/bin/psql"

/-- direct_restore.py line 10. -/
def DEFAULT_RESTORE_FILE : String := "full_backup_20251125_000420.sql"

/-- The connection configuration dictionary built by `get_config`. -/
structure DbConfig where
  host : String
  port : String
  user : String
  password : String
deriving DecidableEq

/-- `get_config` (direct_restore.py lines 13-29): read `DB_HOST`,
`DB_PORT` (default `6543`), `DB_USER` and `PASS` from the environment;
yield nothing when host, user or password is missing or empty
(Python falsiness). -/
def get_config (environ : String → Option String) : Option DbConfig :=
  let host := environ "DB_HOST"
  let port := (environ "DB_PORT").getD "6543"
  let user := environ "DB_USER"
  let password := environ "PASS"
  if !truthy host || !truthy user || !truthy password then none
  else some ⟨host.getD "", port, user.getD "", password.getD ""⟩

/-- Lines 39-41: the filename prompt answer is stripped, and an empty
answer selects the default file. -/
def restoreFileOf (fileInput : String) : String :=
  if pyStrip fileInput = "" then DEFAULT_RESTORE_FILE else pyStrip fileInput

/-- Lines 61-63: use the fixed `psql` path when it exists on disk, else
fall back to the bare command name. -/
def psqlPathOf (pathExists : String → Bool) : String :=
  if pathExists PSQL_PATH then PSQL_PATH else "psql"

/-- Lines 66-75: the `psql` argument list. -/
def restoreCmd (psqlPath : String) (cfg : DbConfig) (restoreFile : String) : List String :=
  [psqlPath,
   "--host=" ++ cfg.host,
   "--port=" ++ cfg.port,
   "--username=" ++ cfg.user,
   "--dbname=postgres",
   "--file=" ++ restoreFile,
   "--echo-errors",
   "--quiet"]

/-- Behaviour of the single `subprocess.run` call in the restore script,
which passes `timeout=300`: it completes, exceeds the timeout
(`TimeoutExpired`), or raises `FileNotFoundError`. -/
inductive SubprocBehavior where
  | completes (r : RunResult)
  | timesOut
  | missingExe
deriving DecidableEq

/-- Terminal outcome of one run of `restore_supabase_data`. -/
inductive RestoreOutcome where
  | noConfig
  | fileNotFound (file : String)
  | cancelled
  | success (file : String)
  | failed (rc : Int) (out err : String)
  | psqlNotFound (path : String)
  | timedOut
deriving DecidableEq

/-- The first diagnostic line the restore script prints for each terminal
outcome (direct_restore.py lines 21, 44, 53, 87, 89, 100, 103). -/
def restoreReport : RestoreOutcome → String
  | RestoreOutcome.noConfig =>
      "❌ Configuration Error: Missing DB_HOST, DB_USER, or PASS in .env file."
  | RestoreOutcome.fileNotFound f => "❌ File not found: " ++ f
  | RestoreOutcome.cancelled => "Restore cancelled by user."
  | RestoreOutcome.success f =>
      "\n✅ RESTORE COMPLETE! Database restored from " ++ f ++ "."
  | RestoreOutcome.failed rc _ _ =>
      "\n❌ psql failed: Restore attempt failed with return code " ++ toString rc ++ "."
  | RestoreOutcome.psqlNotFound p => "❌ Could not find psql at: " ++ p
  | RestoreOutcome.timedOut =>
      "❌ Restore timed out after 300 seconds (5 minutes). The file may be too large or the connection too slow."

/-- The world one run of the restore script executes in. -/
structure RestoreWorld where
  environ : String → Option String
  fileInput : String
  pathExists : String → Bool
  confirmInput : String
  psqlBehavior : SubprocBehavior

/-- `restore_supabase_data` (direct_restore.py lines 31-105): returns the
terminal outcome together with the list of subprocess invocations that
were started. -/
def restoreRun (w : RestoreWorld) : RestoreOutcome × List Invocation :=
  match get_config w.environ with
  | none => (RestoreOutcome.noConfig, [])
  | some cfg =>
    let restoreFile := restoreFileOf w.fileInput
    if !w.pathExists restoreFile then (RestoreOutcome.fileNotFound restoreFile, [])
    else if pyUpper w.confirmInput ≠ "YES" then (RestoreOutcome.cancelled, [])
    else
      let psqlPath := psqlPathOf w.pathExists
      let inv : Invocation :=
        ⟨restoreCmd psqlPath cfg restoreFile, setEnv w.environ "PGPASSWORD" cfg.password, some 300⟩
      match w.psqlBehavior with
      | SubprocBehavior.completes r =>
          if r.returncode = 0 then (RestoreOutcome.success restoreFile, [inv])
          else (RestoreOutcome.failed r.returncode r.stdout r.stderr, [inv])
      | SubprocBehavior.timesOut => (RestoreOutcome.timedOut, [inv])
      | SubprocBehavior.missingExe => (RestoreOutcome.psqlNotFound psqlPath, [inv])

/-! The timestamp embedded in backup file names.

`datetime.now()` is modelled as a record with microsecond resolution and
`strftime("%Y%m%d_%H%M%S")` as zero-padded decimal rendering of the six
second-resolution fields, exactly what the Python format produces for
in-range field values. -/

/-- A `datetime.datetime` value (microsecond resolution, like Python). -/
structure PyDateTime where
  year : Nat
  month : Nat
  day : Nat
  hour : Nat
  minute : Nat
  second : Nat
  microsecond : Nat
deriving DecidableEq

/-- The decimal digit character for `n % 10`. -/
def digitChar (n : Nat) : Char := Char.ofNat (48 + n % 10)

/-- Zero-padded two-digit decimal rendering (strftime `%m`, `%d`, `%H`,
`%M`, `%S` for in-range values). -/
def pad2 (n : Nat) : String := String.mk [digitChar (n / 10), digitChar n]

/-- Zero-padded four-digit decimal rendering (strftime `%Y` for years
below 10000). -/
def pad4 (n : Nat) : String :=
  String.mk [digitChar (n / 1000), digitChar (n / 100), digitChar (n / 10), digitChar n]

/-- `datetime.now().strftime("%Y%m%d_%H%M%S")` (direct_backup.py line 32). -/
def backupTimestamp (t : PyDateTime) : String :=
  pad4 t.year ++ pad2 t.month ++ pad2 t.day ++ "_" ++ pad2 t.hour ++ pad2 t.minute ++ pad2 t.second

/-! Substring testing, used to state the absence of exclusion flags. -/

/-- Whether the first character list occurs contiguously in the second. -/
def isSubChars (pat : List Char) : List Char → Bool
  | [] => isPrefChars pat []
  | b :: bs => isPrefChars pat (b :: bs) || isSubChars pat bs

/-- Whether `pat` occurs as a contiguous substring of `s`. -/
def strMentions (s pat : String) : Bool := isSubChars pat.data s.data

/-! Spec-side definition for the executable-resolution claim. -/

/-- Modelled from the spec: the two-step executable lookup the spec
ascribes to both tools, "preferring a fixed known install path and
falling back to a bare command name" (spec sections 4.2 and 9).  Used
only to compare the description in the spec against the embedded code. -/
def specResolveExecutable (pathExists : String → Bool) (fixed bare : String) : String :=
  if pathExists fixed then fixed else bare

/-- The password the restore script will export to its subprocess, as a
function of the environment alone (empty when no configuration loads,
in which case no subprocess is started anyway). -/
def cfgPassword (environ : String → Option String) : String :=
  match get_config environ with
  | some c => c.password
  | none => ""

/-! Shared helper lemmas. -/

/-- Two strings with the same character data are equal. -/
theorem strData_inj (s t : String) (h : s.data = t.data) : s = t := by
  obtain ⟨l⟩ := s
  obtain ⟨m⟩ := t
  exact congrArg String.mk h

/-- `String.mk` is injective. -/
theorem strMk_inj (l m : List Char) (h : String.mk l = String.mk m) : l = m := by
  injection h

/-- Two digit characters agree exactly when the digits agree. -/
theorem digitChar_eq_iff (a b : Nat) : digitChar a = digitChar b ↔ a % 10 = b % 10 := by
  constructor
  · intro h
    have hb10 : ∀ x < 10, ∀ y < 10, Char.ofNat (48 + x) = Char.ofNat (48 + y) → x = y := by
      decide
    exact hb10 (a % 10) (Nat.mod_lt _ (by omega)) (b % 10) (Nat.mod_lt _ (by omega)) h
  · intro h
    unfold digitChar
    rw [h]

/-- The character data of a formatted timestamp, digit by digit. -/
theorem backupTimestamp_data (t : PyDateTime) :
    (backupTimestamp t).data =
      [digitChar (t.year / 1000), digitChar (t.year / 100), digitChar (t.year / 10),
       digitChar t.year,
       digitChar (t.month / 10), digitChar t.month,
       digitChar (t.day / 10), digitChar t.day, '_',
       digitChar (t.hour / 10), digitChar t.hour,
       digitChar (t.minute / 10), digitChar t.minute,
       digitChar (t.second / 10), digitChar t.second] := rfl

/-- The second-resolution `strftime` format is injective on the six
fields it renders, for field values in their zero-padded ranges. -/
theorem backupTimestamp_inj (t u : PyDateTime)
    (hty : t.year < 10000) (huy : u.year < 10000)
    (htm : t.month < 100) (hum : u.month < 100)
    (htd : t.day < 100) (hud : u.day < 100)
    (hth : t.hour < 100) (huh : u.hour < 100)
    (hti : t.minute < 100) (hui : u.minute < 100)
    (hts : t.second < 100) (hus : u.second < 100)
    (h : backupTimestamp t = backupTimestamp u) :
    t.year = u.year ∧ t.month = u.month ∧ t.day = u.day ∧
    t.hour = u.hour ∧ t.minute = u.minute ∧ t.second = u.second := by
  have hd := congrArg String.data h
  rw [backupTimestamp_data, backupTimestamp_data] at hd
  simp only [List.cons.injEq] at hd
  obtain ⟨y1, y2, y3, y4, m1, m2, d1, d2, -, h1, h2, i1, i2, s1, s2, -⟩ := hd
  refine ⟨?_, ?_, ?_, ?_, ?_, ?_⟩
  · have := (digitChar_eq_iff _ _).mp y1
    have := (digitChar_eq_iff _ _).mp y2
    have := (digitChar_eq_iff _ _).mp y3
    have := (digitChar_eq_iff _ _).mp y4
    omega
  · have := (digitChar_eq_iff _ _).mp m1
    have := (digitChar_eq_iff _ _).mp m2
    omega
  · have := (digitChar_eq_iff _ _).mp d1
    have := (digitChar_eq_iff _ _).mp d2
    omega
  · have := (digitChar_eq_iff _ _).mp h1
    have := (digitChar_eq_iff _ _).mp h2
    omega
  · have := (digitChar_eq_iff _ _).mp i1
    have := (digitChar_eq_iff _ _).mp i2
    omega
  · have := (digitChar_eq_iff _ _).mp s1
    have := (digitChar_eq_iff _ _).mp s2
    omega

/-- Schema backup file names embed the timestamp injectively. -/
theorem schemaFileName_inj (a b : String) (h : schemaFileName a = schemaFileName b) : a = b := by
  unfold schemaFileName at h
  have hd := congrArg String.data h
  rw [show ("schema_backup_" ++ a ++ ".sql").data =
        ("schema_backup_".data ++ a.data) ++ ".sql".data from rfl] at hd
  rw [show ("schema_backup_" ++ b ++ ".sql").data =
        ("schema_backup_".data ++ b.data) ++ ".sql".data from rfl] at hd
  exact strData_inj _ _ (List.append_cancel_left (List.append_cancel_right hd))

/-- Data backup file names embed the timestamp injectively. -/
theorem dataFileName_inj (a b : String) (h : dataFileName a = dataFileName b) : a = b := by
  unfold dataFileName at h
  have hd := congrArg String.data h
  rw [show ("complete_backup_" ++ a ++ ".sql").data =
        ("complete_backup_".data ++ a.data) ++ ".sql".data from rfl] at hd
  rw [show ("complete_backup_" ++ b ++ ".sql").data =
        ("complete_backup_".data ++ b.data) ++ ".sql".data from rfl] at hd
  exact strData_inj _ _ (List.append_cancel_left (List.append_cancel_right hd))

/-- Whitespace characters are fixed points of the ASCII upper-case map. -/
theorem space_toUpper (a : Char) (h : pyIsSpace a = true) : Char.toUpper a = a := by
  simp only [pyIsSpace, Bool.or_eq_true, beq_iff_eq] at h
  rcases h with ((((h | h) | h) | h) | h) | h <;> subst h <;> decide

/-- A character whose upper-case image is not whitespace is itself not
whitespace. -/
theorem notSpace_of_upper (a target : Char) (ha : Char.toUpper a = target)
    (ht : pyIsSpace target = false) : pyIsSpace a = false := by
  cases hpa : pyIsSpace a with
  | false => rfl
  | true =>
    rw [space_toUpper a hpa] at ha
    subst ha
    exact hpa.symm.trans ht

/-- A string whose upper-case image is the confirmation literal carries
no surrounding whitespace, so stripping it is the identity. -/
theorem strip_of_upper_yes (s : String) (h : pyUpper s = "YES") : pyStrip s = s := by
  obtain ⟨l⟩ := s
  unfold pyUpper at h
  have h2 : l.map Char.toUpper = ['Y', 'E', 'S'] := strMk_inj _ _ h
  have hlen : l.length = 3 := by
    have := congrArg List.length h2
    simpa using this
  obtain ⟨a, b, c, rfl⟩ := List.length_eq_three.mp hlen
  simp only [List.map_cons, List.map_nil, List.cons.injEq, and_true] at h2
  obtain ⟨ha, hb, hc⟩ := h2
  have hsa : pyIsSpace a = false := notSpace_of_upper a 'Y' ha (by decide)
  have hsc : pyIsSpace c = false := notSpace_of_upper c 'S' hc (by decide)
  simp [pyStrip, List.dropWhile, hsa, hsc]

/-- The host argument never equals the schema-only flag, whatever host
was derived from the environment. -/
theorem ne_hostArg (h : String) : "--schema-only" ≠ "--host=" ++ h := by
  intro he
  have := congrArg String.data he
  rw [show ("--host=" ++ h).data =
        '-' :: '-' :: 'h' :: 'o' :: 's' :: 't' :: '=' :: h.data from rfl] at this
  simp at this

/-- The output-file argument never equals the schema-only flag. -/
theorem ne_fileArg (f : String) : "--schema-only" ≠ "--file=" ++ f := by
  intro he
  have := congrArg String.data he
  rw [show ("--file=" ++ f).data =
        '-' :: '-' :: 'f' :: 'i' :: 'l' :: 'e' :: '=' :: f.data from rfl] at this
  simp at this

/-- Boolean form of `ne_hostArg`, as needed to step `List.erase`. -/
theorem hostArg_ne (h : String) : (("--host=" ++ h) == "--schema-only") = false := by
  apply beq_eq_false_iff_ne.mpr
  intro he
  exact ne_hostArg h he.symm

/-- Boolean form of `ne_fileArg`. -/
theorem fileArg_ne (f : String) : (("--file=" ++ f) == "--schema-only") = false := by
  apply beq_eq_false_iff_ne.mpr
  intro he
  exact ne_fileArg f he.symm

/-- The full-with-data argument list, computed: the schema list with the
schema-only flag erased and the output file replaced. -/
theorem dataCmd_eq (host ts : String) :
    dataCmd host ts =
      [PG_DUMP_PATH, "--host=" ++ host, "--port=5432", "--username=postgres",
       "--dbname=postgres", "--no-owner", "--no-privileges", "--clean", "--if-exists",
       "--no-sync", "--file=" ++ dataFileName ts] := by
  unfold dataCmd backupCmd
  rw [List.erase_cons_tail, List.erase_cons_tail, List.erase_cons_tail,
      List.erase_cons_tail, List.erase_cons_tail, List.erase_cons_head]
  · rfl
  all_goals simp [hostArg_ne, PG_DUMP_PATH]

/-! Concrete fixtures used by witnesses and counterexamples. -/

/-- A concrete process environment for backup-script runs. -/
def envB : String → Option String :=
  fun k => if k = "HOME" then some "/Users/op" else none

/-- A concrete backup run in which both invocations succeed. -/
def backupWorldOk : BackupWorld :=
  { supabaseUrl := some "https://proj.supabase.co"
  , environ := envB
  , passwordInput := "secret"
  , timestamp := "20250101_120000"
  , schemaBehavior := PgRunBehavior.completes ⟨0, "", ""⟩
  , schemaFileSize := 2048
  , dataAnswer := "y"
  , dataBehavior := PgRunBehavior.completes ⟨0, "", ""⟩
  , dataFileSize := 4096 }

/-- A concrete process environment for restore-script runs. -/
def envR : String → Option String :=
  fun k =>
    if k = "DB_HOST" then some "db.proj.supabase.co"
    else if k = "DB_USER" then some "postgres"
    else if k = "PASS" then some "pw"
    else if k = "HOME" then some "/Users/op"
    else none

/-- The configuration `get_config` builds from `envR`. -/
def cfgR : DbConfig := ⟨"db.proj.supabase.co", "6543", "postgres", "pw"⟩

/-- A concrete restore run that reaches the subprocess and succeeds. -/
def restoreWorldOk : RestoreWorld :=
  { environ := envR
  , fileInput := ""
  , pathExists := fun _ => true
  , confirmInput := "yes"
  , psqlBehavior := SubprocBehavior.completes ⟨0, "", ""⟩ }

/-! Claim C1. -/

/-- C1 counterexample: in a concrete full-mode run the data-backup
argument list mentions no exclusion flag at all — no element contains
the substring `exclude` and no element is the short exclusion flag — so
the command does not carry an exclusion flag for each of five
platform-managed schema names, refuting the claim as stated. -/
theorem C1_counterexample :
    (backupRun backupWorldOk).2.map Invocation.argv =
      [backupCmd "db.proj.supabase.co" "20250101_120000",
       dataCmd "db.proj.supabase.co" "20250101_120000"]
    ∧ (dataCmd "db.proj.supabase.co" "20250101_120000").all
        (fun a => !(strMentions a "exclude")) = true
    ∧ (dataCmd "db.proj.supabase.co" "20250101_120000").contains "-N" = false
    ∧ (dataCmd "db.proj.supabase.co" "20250101_120000").contains "--schema-only" = false := by
  refine ⟨by decide, by decide, by decide, by decide⟩

/-- C1 (amended): for every full-mode (with-data) backup invocation, the
constructed argument list is the schema-only list with the schema-only
flag removed and the output file replaced; it does not include the
schema-only flag, and it includes no schema-exclusion flags. -/
theorem C1_full_mode_args (host ts : String) :
    dataCmd host ts =
      [PG_DUMP_PATH, "--host=" ++ host, "--port=5432", "--username=postgres",
       "--dbname=postgres", "--no-owner", "--no-privileges", "--clean", "--if-exists",
       "--no-sync", "--file=" ++ dataFileName ts]
    ∧ (dataCmd host ts).all (fun a => !(a == "--schema-only")) = true
    ∧ (dataCmd host ts).all (fun a => !(isPrefChars ("--exclude".data) a.data)) = true := by
  refine ⟨dataCmd_eq host ts, ?_, ?_⟩
  · rw [dataCmd_eq]
    simp only [List.all_cons, List.all_nil, Bool.and_eq_true, Bool.not_eq_true]
    exact ⟨by decide, by rw [hostArg_ne host]; rfl, by decide, by decide, by decide, by decide,
      by decide, by decide, by decide, by decide, by rw [fileArg_ne (dataFileName ts)]; rfl, trivial⟩
  · rw [dataCmd_eq]
    simp only [List.all_cons, List.all_nil, Bool.and_eq_true, Bool.not_eq_true]
    exact ⟨rfl, rfl, rfl, rfl, rfl, rfl, rfl, rfl, rfl, rfl, rfl, trivial⟩

/-! Claim C2. -/

/-- C2 counterexample: a concrete run in which the schema-only invocation
fails (non-zero exit) while the operator has already asked for the data
backup; the run ends after a single invocation, so the full-mode
invocation was never attempted — failure of one mode does block the
other, refuting the claim. -/
theorem C2_counterexample :
    pyLower (pyStrip ({ backupWorldOk with
        schemaBehavior := PgRunBehavior.completes ⟨1, "", "connection refused"⟩ }).dataAnswer) = "y"
    ∧ (backupRun { backupWorldOk with
        schemaBehavior := PgRunBehavior.completes ⟨1, "", "connection refused"⟩ }).1 =
        BackupOutcome.schemaFailed "connection refused"
    ∧ (backupRun { backupWorldOk with
        schemaBehavior := PgRunBehavior.completes ⟨1, "", "connection refused"⟩ }).2.map
          Invocation.argv = [backupCmd "db.proj.supabase.co" "20250101_120000"] := by
  refine ⟨by decide, by decide, by decide⟩

/-- C2 (amended): the two modes are not independent — the full-with-data
invocation is attempted (a second subprocess starts) only when the
schema-only invocation completed with exit code 0, its output file was
non-empty, and the operator consented; conversely, a failure of the
full-mode invocation happens only after the schema-only invocation has
already been started. -/
theorem C2_modes_dependency (w : BackupWorld) :
    ((backupRun w).2.length = 2 →
      ∃ r, w.schemaBehavior = PgRunBehavior.completes r ∧ r.returncode = 0 ∧
        0 < w.schemaFileSize ∧ pyLower (pyStrip w.dataAnswer) = "y")
    ∧ (∀ r2, w.dataBehavior = PgRunBehavior.completes r2 → r2.returncode ≠ 0 →
        (backupRun w).1 = BackupOutcome.dataFailed r2.stderr →
        (backupRun w).2.map Invocation.argv =

          [backupCmd (backupHost (w.supabaseUrl.getD "")) w.timestamp,
           dataCmd (backupHost (w.supabaseUrl.getD "")) w.timestamp]) := by
  constructor
  · unfold backupRun
    cases htruthy : truthy w.supabaseUrl with
    | false => intro hlen; simp at hlen
    | true =>
      cases hs : w.schemaBehavior with
      | missingExe => intro hlen; simp at hlen
      | completes r =>
        by_cases hrc : r.returncode = 0
        · by_cases hsz : 0 < w.schemaFileSize
          · by_cases hy : pyLower (pyStrip w.dataAnswer) = "y"
            · intro hlen
              exact ⟨r, rfl, hrc, hsz, hy⟩
            · intro hlen
              simp [hrc, hsz, hy] at hlen
          · intro hlen
            simp [hrc, hsz] at hlen
        · intro hlen
          simp [hrc] at hlen
  · intro r2 hd hrc2 ho
    unfold backupRun at ho ⊢
    cases htruthy : truthy w.supabaseUrl with
    | false => simp [htruthy] at ho
    | true =>
      cases hs : w.schemaBehavior with
      | missingExe => simp [htruthy, hs] at ho
      | completes r =>
        by_cases hrc : r.returncode = 0 <;>
          by_cases hsz : 0 < w.schemaFileSize <;>
            by_cases hy : pyLower (pyStrip w.dataAnswer) = "y" <;>
              simp [htruthy, hs, hrc, hsz, hy, hd, hrc2] at ho ⊢

/-- C2 witness: a concrete run that does start both invocations, and as
the amended claim requires, its schema invocation succeeded with a
non-empty file and the operator consented. -/
theorem C2_witness :
    (backupRun backupWorldOk).2.length = 2
    ∧ (∃ r, backupWorldOk.schemaBehavior = PgRunBehavior.completes r ∧ r.returncode = 0 ∧
        0 < backupWorldOk.schemaFileSize ∧ pyLower (pyStrip backupWorldOk.dataAnswer) = "y") :=
  ⟨by decide, (C2_modes_dependency backupWorldOk).1 (by decide)⟩

/-! Claim C3. -/

/-- C3 counterexample: on a filesystem where no candidate path exists the
two-step lookup described by the spec would resolve the dump utility to
the bare command name, yet every invocation the backup tool starts still
names the fixed install path — the backup tool performs no fallback (its
embedding consults no filesystem oracle at all), refuting the claim for
the backup tool. -/
theorem C3_counterexample :
    specResolveExecutable (fun _ => false) PG_DUMP_PATH "pg_dump" = "pg_dump"
    ∧ (backupRun backupWorldOk).2.map (fun i => i.argv.head?) =
        [some PG_DUMP_PATH, some PG_DUMP_PATH]
    ∧ PG_DUMP_PATH ≠ "pg_dump" := by
  refine ⟨rfl, by decide, by decide⟩

/-- C3 (amended): only the restore tool resolves its executable by the
two-step lookup (the fixed path when it exists, else the bare command
name); the backup tool always invokes the dump utility at the fixed
install path, with no fallback. -/
theorem C3_executable_resolution (w : RestoreWorld) (cfg : DbConfig)
    (hc : get_config w.environ = some cfg)
    (hf : w.pathExists (restoreFileOf w.fileInput) = true)
    (hconf : pyUpper w.confirmInput = "YES") :
    (restoreRun w).2.map (fun i => i.argv.head?) =
      [some (specResolveExecutable w.pathExists PSQL_PATH "psql")]
    ∧ (∀ wb : BackupWorld, (backupRun wb).2.map (fun i => i.argv.head?) =
        List.replicate (backupRun wb).2.length (some PG_DUMP_PATH)) := by
  constructor
  · unfold restoreRun
    rw [hc]
    simp only [hf, hconf, Bool.not_true, ne_eq, not_true_eq_false, if_false]
    cases w.psqlBehavior with
    | completes r =>
      by_cases hrc : r.returncode = 0 <;>
        simp [hrc, restoreCmd, psqlPathOf, specResolveExecutable]
    | timesOut => simp [restoreCmd, psqlPathOf, specResolveExecutable]
    | missingExe => simp [restoreCmd, psqlPathOf, specResolveExecutable]
  · intro wb
    unfold backupRun
    cases htruthy : truthy wb.supabaseUrl with
    | false => simp
    | true =>
      cases wb.schemaBehavior with
      | missingExe => simp [backupCmd]
      | completes r =>
        by_cases hrc : r.returncode = 0 <;>
          by_cases hsz : 0 < wb.schemaFileSize <;>
            by_cases hy : pyLower (pyStrip wb.dataAnswer) = "y" <;>
              cases wb.dataBehavior <;>
                simp [hrc, hsz, hy, backupCmd, dataCmd_eq] <;>
                  (rename_i r2; by_cases hrc2 : r2.returncode = 0 <;>
                    simp [hrc2, backupCmd, dataCmd_eq])

/-- C3 witness: a concrete restore run on which the invoked executable is
exactly the spec-side two-step resolution. -/
theorem C3_witness :
    get_config restoreWorldOk.environ = some cfgR
    ∧ restoreWorldOk.pathExists (restoreFileOf restoreWorldOk.fileInput) = true
    ∧ pyUpper restoreWorldOk.confirmInput = "YES"
    ∧ (restoreRun restoreWorldOk).2.map (fun i => i.argv.head?) =
        [some (specResolveExecutable restoreWorldOk.pathExists PSQL_PATH "psql")] :=
  ⟨rfl, rfl, by decide,
   (C3_executable_resolution restoreWorldOk cfgR rfl rfl (by decide)).1⟩

/-! Claim C4. -/

/-- C4 counterexample: an interactively entered password that strips to
the empty string does not abort the backup tool — in a concrete run both
dump subprocesses are still started, with the empty password exported in
their environments, refuting the claim that an empty interactive
password yields no usable configuration and stops the operation before
any subprocess runs. -/
theorem C4_counterexample :
    pyStrip ({ backupWorldOk with passwordInput := "   " }).passwordInput = ""
    ∧ (backupRun { backupWorldOk with passwordInput := "   " }).2.map
        (fun i => Invocation.env i "PGPASSWORD") = [some "", some ""]
    ∧ (backupRun { backupWorldOk with passwordInput := "   " }).2.length = 2 := by
  refine ⟨by decide, by decide, by decide⟩

/-- C4 (amended): the restore tool aborts before any subprocess when
host, username or password is missing or empty in the environment; the
backup tool aborts before any subprocess when the base URL is missing or
empty; but an empty interactively entered password does not stop the
backup tool — whenever the base URL is usable, at least one subprocess
is started regardless of the password. -/
theorem C4_config_validation :
    (∀ environ : String → Option String,
      truthy (environ "DB_HOST") = false ∨ truthy (environ "DB_USER") = false ∨
        truthy (environ "PASS") = false → get_config environ = none)
    ∧ (∀ w : RestoreWorld, get_config w.environ = none →
        restoreRun w = (RestoreOutcome.noConfig, []))
    ∧ (∀ w : BackupWorld, truthy w.supabaseUrl = false →
        backupRun w = (BackupOutcome.noUrl, []))
    ∧ (∀ w : BackupWorld, truthy w.supabaseUrl = true → 0 < (backupRun w).2.length) := by
  refine ⟨?_, ?_, ?_, ?_⟩
  · intro environ h
    unfold get_config
    rcases h with h | h | h <;> simp [h]
  · intro w h
    unfold restoreRun
    rw [h]
  · intro w h
    unfold backupRun
    simp [h]
  · intro w h
    unfold backupRun
    simp only [h, Bool.not_true]
    cases w.schemaBehavior with
    | missingExe => simp
    | completes r =>
      by_cases hrc : r.returncode = 0 <;>
        by_cases hsz : 0 < w.schemaFileSize <;>
          by_cases hy : pyLower (pyStrip w.dataAnswer) = "y" <;>
            cases w.dataBehavior <;>
              simp [hrc, hsz, hy] <;>
                (rename_i r2; by_cases hrc2 : r2.returncode = 0 <;> simp [hrc2])

/-- C4 witness: with every environment variable absent the restore tool
loads no configuration and aborts with no subprocess started. -/
theorem C4_witness :
    truthy ((fun _ => (none : Option String)) "DB_HOST") = false
    ∧ get_config (fun _ => none) = none
    ∧ restoreRun { restoreWorldOk with environ := fun _ => none } =
        (RestoreOutcome.noConfig, []) :=
  ⟨rfl, C4_config_validation.1 (fun _ => none) (Or.inl rfl),
   C4_config_validation.2.1 { restoreWorldOk with environ := fun _ => none }
     (C4_config_validation.1 (fun _ => none) (Or.inl rfl))⟩

/-! Claim C5. -/

/-- C5: once the restore flow reaches the confirmation prompt, an answer
whose upper-cased form is not the accepted literal aborts the run with
the cancellation report and zero subprocesses started, while an answer
matching the literal case-insensitively proceeds to start exactly one
subprocess. -/
theorem C5_confirmation (w : RestoreWorld) (cfg : DbConfig)
    (hc : get_config w.environ = some cfg)
    (hf : w.pathExists (restoreFileOf w.fileInput) = true) :
    (pyUpper w.confirmInput ≠ "YES" →
      restoreRun w = (RestoreOutcome.cancelled, [])
      ∧ restoreReport RestoreOutcome.cancelled = "Restore cancelled by user.")
    ∧ (pyUpper w.confirmInput = "YES" → (restoreRun w).2.length = 1) := by
  constructor
  · intro hne
    refine ⟨?_, rfl⟩
    unfold restoreRun
    rw [hc]
    simp [hf, hne]
  · intro heq
    unfold restoreRun
    rw [hc]
    simp only [hf, heq, Bool.not_true, ne_eq, not_true_eq_false, if_false]
    cases w.psqlBehavior with
    | completes r => by_cases hrc : r.returncode = 0 <;> simp [hrc]
    | timesOut => simp
    | missingExe => simp

/-- C5 witness: the answer `no` cancels a concrete restore run with no
subprocess, and the answer `yes` (case-insensitive match) proceeds to
start exactly one subprocess. -/
theorem C5_witness :
    get_config restoreWorldOk.environ = some cfgR
    ∧ pyUpper "no" ≠ "YES"
    ∧ restoreRun { restoreWorldOk with confirmInput := "no" } = (RestoreOutcome.cancelled, [])
    ∧ pyUpper "yes" = "YES"
    ∧ (restoreRun restoreWorldOk).2.length = 1 :=
  ⟨rfl, by decide,
   ((C5_confirmation { restoreWorldOk with confirmInput := "no" } cfgR rfl rfl).1 (by decide)).1,
   by decide,
   (C5_confirmation restoreWorldOk cfgR rfl rfl).2 (by decide)⟩

/-! Claim C6. -/

/-- C6: when the resolved restore target does not exist on disk, the
restore run aborts with the not-found report and zero subprocesses
started. -/
theorem C6_missing_file (w : RestoreWorld) (cfg : DbConfig)
    (hc : get_config w.environ = some cfg)
    (hnf : w.pathExists (restoreFileOf w.fileInput) = false) :
    restoreRun w = (RestoreOutcome.fileNotFound (restoreFileOf w.fileInput), [])
    ∧ restoreReport (RestoreOutcome.fileNotFound (restoreFileOf w.fileInput)) =
        "❌ File not found: " ++ restoreFileOf w.fileInput := by
  constructor
  · unfold restoreRun
    rw [hc]
    simp [hnf]
  · rfl

/-- C6 witness: a concrete restore run pointed at a missing file aborts
before any subprocess. -/
theorem C6_witness :
    get_config ({ restoreWorldOk with
        fileInput := "missing.sql", pathExists := fun _ => false }).environ = some cfgR
    ∧ ({ restoreWorldOk with fileInput := "missing.sql", pathExists := fun _ => false
        }).pathExists (restoreFileOf "missing.sql") = false
    ∧ restoreRun { restoreWorldOk with
        fileInput := "missing.sql", pathExists := fun _ => false } =
        (RestoreOutcome.fileNotFound (restoreFileOf "missing.sql"), []) :=
  ⟨rfl, rfl,
   (C6_missing_file { restoreWorldOk with
      fileInput := "missing.sql", pathExists := fun _ => false } cfgR rfl rfl).1⟩

/-! Claim C7. -/

/-- C7: the single restore invocation always carries the fixed 300-second
timeout; when the subprocess exceeds it the run ends in the timed-out
outcome, whose diagnostic differs from the generic non-zero-exit failure
diagnostic for every return code. -/
theorem C7_timeout_diagnostic (w : RestoreWorld) (cfg : DbConfig)
    (hc : get_config w.environ = some cfg)
    (hf : w.pathExists (restoreFileOf w.fileInput) = true)
    (hconf : pyUpper w.confirmInput = "YES") :
    ((restoreRun w).2.map Invocation.timeout = [some 300])
    ∧ (w.psqlBehavior = SubprocBehavior.timesOut → (restoreRun w).1 = RestoreOutcome.timedOut)
    ∧ (∀ rc out err, restoreReport RestoreOutcome.timedOut ≠
        restoreReport (RestoreOutcome.failed rc out err)) := by
  refine ⟨?_, ?_, ?_⟩
  · unfold restoreRun
    rw [hc]
    simp only [hf, hconf, Bool.not_true, ne_eq, not_true_eq_false, if_false]
    cases w.psqlBehavior with
    | completes r => by_cases hrc : r.returncode = 0 <;> simp [hrc]
    | timesOut => simp
    | missingExe => simp
  · unfold restoreRun
    rw [hc]
    simp only [hf, hconf, Bool.not_true, ne_eq, not_true_eq_false, if_false]
    intro ht
    rw [ht]
    simp
  · intro rc out err h
    have h2 : (restoreReport RestoreOutcome.timedOut).data.head? =
        (restoreReport (RestoreOutcome.failed rc out err)).data.head? := by rw [h]
    rw [show (restoreReport RestoreOutcome.timedOut).data.head? = some '❌' from rfl] at h2
    rw [show (restoreReport (RestoreOutcome.failed rc out err)).data.head? = some '\n'
      from rfl] at h2
    simp at h2

/-- C7 witness: a concrete restore run whose subprocess exceeds the
timeout carries the 300-second bound and ends timed out, with a
diagnostic different from the failure diagnostic. -/
theorem C7_witness :
    get_config ({ restoreWorldOk with
        psqlBehavior := SubprocBehavior.timesOut }).environ = some cfgR
    ∧ (restoreRun { restoreWorldOk with psqlBehavior := SubprocBehavior.timesOut }).2.map
        Invocation.timeout = [some 300]
    ∧ (restoreRun { restoreWorldOk with psqlBehavior := SubprocBehavior.timesOut }).1 =
        RestoreOutcome.timedOut
    ∧ restoreReport RestoreOutcome.timedOut ≠ restoreReport (RestoreOutcome.failed 1 "" "") :=
  ⟨rfl,
   (C7_timeout_diagnostic { restoreWorldOk with psqlBehavior := SubprocBehavior.timesOut }
     cfgR rfl rfl (by decide)).1,
   (C7_timeout_diagnostic { restoreWorldOk with psqlBehavior := SubprocBehavior.timesOut }
     cfgR rfl rfl (by decide)).2.1 rfl,
   (C7_timeout_diagnostic { restoreWorldOk with psqlBehavior := SubprocBehavior.timesOut }
     cfgR rfl rfl (by decide)).2.2 1 "" ""⟩

/-! Claim C8. -/

/-- C8: every subprocess either tool starts receives exactly the copied
process environment with the single password variable overridden — the
password variable maps to the password, every other variable is
unchanged — and the password never reaches the argument list: the
argument lists of a backup run are unchanged under any change of the
entered password, and the restore argument list is determined by the
non-password configuration fields. -/
theorem C8_password_isolation (wb : BackupWorld) (wr : RestoreWorld) :
    ((backupRun wb).2.map (fun i => Invocation.env i "PGPASSWORD") =
      List.replicate (backupRun wb).2.length (some (pyStrip wb.passwordInput)))
    ∧ (∀ k, k ≠ "PGPASSWORD" →
        (backupRun wb).2.map (fun i => Invocation.env i k) =
          List.replicate (backupRun wb).2.length (wb.environ k))
    ∧ ((restoreRun wr).2.map (fun i => Invocation.env i "PGPASSWORD") =
        List.replicate (restoreRun wr).2.length (some (cfgPassword wr.environ)))
    ∧ (∀ k, k ≠ "PGPASSWORD" →
        (restoreRun wr).2.map (fun i => Invocation.env i k) =
          List.replicate (restoreRun wr).2.length (wr.environ k))
    ∧ (∀ p, (backupRun { wb with passwordInput := p }).2.map Invocation.argv =
        (backupRun wb).2.map Invocation.argv)
    ∧ (∀ path file c1 c2, c1.host = c2.host → c1.port = c2.port → c1.user = c2.user →
        restoreCmd path c1 file = restoreCmd path c2 file) := by
  refine ⟨?_, ?_, ?_, ?_, ?_, ?_⟩
  · unfold backupRun
    cases htruthy : truthy wb.supabaseUrl with
    | false => simp
    | true =>
      cases wb.schemaBehavior with
      | missingExe => simp [setEnv]
      | completes r =>
        by_cases hrc : r.returncode = 0 <;>
          by_cases hsz : 0 < wb.schemaFileSize <;>
            by_cases hy : pyLower (pyStrip wb.dataAnswer) = "y" <;>
              cases wb.dataBehavior <;>
                simp [hrc, hsz, hy, setEnv] <;>
                  (rename_i r2; by_cases hrc2 : r2.returncode = 0 <;> simp [hrc2, setEnv])
  · intro k hk
    unfold backupRun
    cases htruthy : truthy wb.supabaseUrl with
    | false => simp
    | true =>
      cases wb.schemaBehavior with
      | missingExe => simp [setEnv, hk]
      | completes r =>
        by_cases hrc : r.returncode = 0 <;>
          by_cases hsz : 0 < wb.schemaFileSize <;>
            by_cases hy : pyLower (pyStrip wb.dataAnswer) = "y" <;>
              cases wb.dataBehavior <;>
                simp [hrc, hsz, hy, setEnv, hk] <;>
                  (rename_i r2; by_cases hrc2 : r2.returncode = 0 <;> simp [hrc2, setEnv, hk])
  · unfold restoreRun cfgPassword
    cases hg : get_config wr.environ with
    | none => simp
    | some cfg =>
      cases hpe : wr.pathExists (restoreFileOf wr.fileInput) with
      | false => simp [hpe]
      | true =>
        by_cases hcf : pyUpper wr.confirmInput = "YES"
        · simp only [hpe, hcf, Bool.not_true, ne_eq, not_true_eq_false, if_false]
          cases wr.psqlBehavior with
          | completes r => by_cases hrc : r.returncode = 0 <;> simp [hrc, setEnv]
          | timesOut => simp [setEnv]
          | missingExe => simp [setEnv]
        · simp [hpe, hcf]
  · intro k hk
    unfold restoreRun
    cases hg : get_config wr.environ with
    | none => simp
    | some cfg =>
      cases hpe : wr.pathExists (restoreFileOf wr.fileInput) with
      | false => simp [hpe]
      | true =>
        by_cases hcf : pyUpper wr.confirmInput = "YES"
        · simp only [hpe, hcf, Bool.not_true, ne_eq, not_true_eq_false, if_false]
          cases wr.psqlBehavior with
          | completes r => by_cases hrc : r.returncode = 0 <;> simp [hrc, setEnv, hk]
          | timesOut => simp [setEnv, hk]
          | missingExe => simp [setEnv, hk]
        · simp [hpe, hcf]
  · intro p
    unfold backupRun
    cases htruthy : truthy wb.supabaseUrl with
    | false => simp [htruthy]
    | true =>
      simp only [htruthy]
      cases wb.schemaBehavior with
      | missingExe => simp
      | completes r =>
        by_cases hrc : r.returncode = 0 <;>
          by_cases hsz : 0 < wb.schemaFileSize <;>
            by_cases hy : pyLower (pyStrip wb.dataAnswer) = "y" <;>
              cases wb.dataBehavior <;>
                simp [hrc, hsz, hy] <;>
                  (rename_i r2; by_cases hrc2 : r2.returncode = 0 <;> simp [hrc2])
  · intro path file c1 c2 h1 h2 h3
    unfold restoreCmd
    rw [h1, h2, h3]

/-- C8 witness: a variable other than the password variable is passed
through unchanged in a concrete backup run, and changing the entered
password leaves the argument lists of that run unchanged. -/
theorem C8_witness :
    "HOME" ≠ "PGPASSWORD"
    ∧ (backupRun backupWorldOk).2.map (fun i => Invocation.env i "HOME") =
        List.replicate (backupRun backupWorldOk).2.length (backupWorldOk.environ "HOME")
    ∧ (backupRun { backupWorldOk with passwordInput := "other" }).2.map Invocation.argv =
        (backupRun backupWorldOk).2.map Invocation.argv :=
  ⟨by decide,
   (C8_password_isolation backupWorldOk restoreWorldOk).2.1 "HOME" (by decide),
   (C8_password_isolation backupWorldOk restoreWorldOk).2.2.2.2.1 "other"⟩

/-! Claim C9. -/

/-- C9 counterexample: two distinct run instants that fall in the same
wall-clock second (they differ only in microseconds) format to the same
timestamp string and hence to the same schema and data backup file
names, so a later run can overwrite an earlier one, refuting the claim
that every pair of runs produces distinct output file names. -/
theorem C9_counterexample :
    (⟨2025, 11, 25, 0, 4, 20, 0⟩ : PyDateTime) ≠ ⟨2025, 11, 25, 0, 4, 20, 500000⟩
    ∧ backupTimestamp ⟨2025, 11, 25, 0, 4, 20, 0⟩ =
        backupTimestamp ⟨2025, 11, 25, 0, 4, 20, 500000⟩
    ∧ schemaFileName (backupTimestamp ⟨2025, 11, 25, 0, 4, 20, 0⟩) =
        schemaFileName (backupTimestamp ⟨2025, 11, 25, 0, 4, 20, 500000⟩)
    ∧ dataFileName (backupTimestamp ⟨2025, 11, 25, 0, 4, 20, 0⟩) =
        dataFileName (backupTimestamp ⟨2025, 11, 25, 0, 4, 20, 500000⟩) := by
  refine ⟨by decide, by decide, by decide, by decide⟩

/-- C9 (amended): two backup runs whose start instants differ in any
second-resolution timestamp field (with fields in their zero-padded
ranges) produce distinct schema file names and distinct data file names;
only runs falling in the same formatted second reuse a name. -/
theorem C9_distinct_names (t u : PyDateTime)
    (hty : t.year < 10000) (huy : u.year < 10000)
    (htm : t.month < 100) (hum : u.month < 100)
    (htd : t.day < 100) (hud : u.day < 100)
    (hth : t.hour < 100) (huh : u.hour < 100)
    (hti : t.minute < 100) (hui : u.minute < 100)
    (hts : t.second < 100) (hus : u.second < 100)
    (hdiff : ¬(t.year = u.year ∧ t.month = u.month ∧ t.day = u.day ∧
        t.hour = u.hour ∧ t.minute = u.minute ∧ t.second = u.second)) :
    schemaFileName (backupTimestamp t) ≠ schemaFileName (backupTimestamp u)
    ∧ dataFileName (backupTimestamp t) ≠ dataFileName (backupTimestamp u) := by
  refine ⟨fun heq => hdiff ?_, fun heq => hdiff ?_⟩
  · exact backupTimestamp_inj t u hty huy htm hum htd hud hth huh hti hui hts hus
      (schemaFileName_inj _ _ heq)
  · exact backupTimestamp_inj t u hty huy htm hum htd hud hth huh hti hui hts hus
      (dataFileName_inj _ _ heq)

/-- C9 witness: two concrete instants one second apart produce distinct
schema and data backup file names. -/
theorem C9_witness :
    (⟨2025, 11, 25, 0, 4, 20, 0⟩ : PyDateTime).second ≠
      (⟨2025, 11, 25, 0, 4, 21, 0⟩ : PyDateTime).second
    ∧ schemaFileName (backupTimestamp ⟨2025, 11, 25, 0, 4, 20, 0⟩) ≠
        schemaFileName (backupTimestamp ⟨2025, 11, 25, 0, 4, 21, 0⟩)
    ∧ dataFileName (backupTimestamp ⟨2025, 11, 25, 0, 4, 20, 0⟩) ≠
        dataFileName (backupTimestamp ⟨2025, 11, 25, 0, 4, 21, 0⟩) :=
  ⟨by decide,
   (C9_distinct_names ⟨2025, 11, 25, 0, 4, 20, 0⟩ ⟨2025, 11, 25, 0, 4, 21, 0⟩
     (by decide) (by decide) (by decide) (by decide) (by decide) (by decide)
     (by decide) (by decide) (by decide) (by decide) (by decide) (by decide)
     (by decide)).1,
   (C9_distinct_names ⟨2025, 11, 25, 0, 4, 20, 0⟩ ⟨2025, 11, 25, 0, 4, 21, 0⟩
     (by decide) (by decide) (by decide) (by decide) (by decide) (by decide)
     (by decide) (by decide) (by decide) (by decide) (by decide) (by decide)
     (by decide)).2⟩

/-! Claim C10. -/

/-- C10: the confirmation answer is compared without stripping — an
answer whose stripped form matches the accepted literal
case-insensitively but which carries surrounding whitespace is treated
as cancellation — while the filename answer is stripped before use. -/
theorem C10_untrimmed_confirmation (w : RestoreWorld) (cfg : DbConfig)
    (hc : get_config w.environ = some cfg)
    (hf : w.pathExists (restoreFileOf w.fileInput) = true)
    (hmatch : pyUpper (pyStrip w.confirmInput) = "YES")
    (hws : pyStrip w.confirmInput ≠ w.confirmInput) :
    restoreRun w = (RestoreOutcome.cancelled, [])
    ∧ restoreFileOf w.fileInput =
        (if pyStrip w.fileInput = "" then DEFAULT_RESTORE_FILE else pyStrip w.fileInput) := by
  constructor
  · have hne : pyUpper w.confirmInput ≠ "YES" := by
      intro he
      exact hws (strip_of_upper_yes _ he)
    unfold restoreRun
    rw [hc]
    simp [hf, hne]
  · rfl

/-- C10 witness: the answer consisting of the literal with a leading
space cancels a concrete restore run that would have proceeded had the
answer been stripped. -/
theorem C10_witness :
    pyUpper (pyStrip " yes") = "YES"
    ∧ pyStrip " yes" ≠ " yes"
    ∧ restoreRun { restoreWorldOk with confirmInput := " yes" } =
        (RestoreOutcome.cancelled, []) :=
  ⟨by decide, by decide,
   (C10_untrimmed_confirmation { restoreWorldOk with confirmInput := " yes" } cfgR rfl rfl
     (by decide) (by decide)).1⟩

end DBBackup
